import Mathlib

/-!
Verification of the AlphaGain WebSocket chat relay
(`Back-end/routers/websocket.py`).

The Python module is shallowly embedded below.  Conventions:

* Python strings are `List Char`; `chars` converts a Lean string literal.
* Python floats are modelled as rationals `ℚ` (exact real arithmetic;
  IEEE-754 rounding is out of scope).  Because Batteries marks `Rat.add`,
  `Rat.mul`, `Rat.sub`, `Rat.inv` irreducible (which blocks kernel
  evaluation), the embedding uses the equivalent executable wrappers
  `qadd`, `qsub`, `qmul`, `qdiv`; the bridge lemmas `qadd_eq` … prove
  them equal to the standard operations.
* `datetime` values are milliseconds since the epoch (`ℤ`), with Python's
  weekday convention (Monday = 0; the epoch day 1970-01-01 is a
  Thursday = 3).  `timedelta(days = 1)` is `msPerDay`, etc.
* The global `random` module is an abstract stream of outcomes
  (`RandState`): each call of a `random` primitive consumes one stream
  element, which is the value that primitive returned.  In particular
  `random.random()` consumes one element (in `[0,1)` for a real RNG —
  theorems that need this range state it as a hypothesis),
  `random.uniform(a, b)` consumes one element `r` and returns
  `a + (b - a) * r` (this is exactly CPython's implementation of
  `uniform` in terms of `random()`), `random.normalvariate` consumes one
  element and returns it unchanged (its support is all of ℝ, so no range
  hypothesis is ever needed), `random.randint`/`random.choice` consume
  one element interpreted by `floorQ`/directly.
* `round(x, 2)` is `round2` (round-half-up on ℚ; CPython rounds half to
  even on binary floats — the two agree except on exact ties, and every
  theorem below that involves `round2` depends only on its monotonicity,
  which both roundings share).
* `int(x)` truncation toward zero is `truncInt`.
-/

/-- `s.toList` shorthand: a Python string literal as a `List Char`. -/
def chars (s : String) : List Char := s.toList

/-- Python `str.upper()` (ASCII; the tickers involved are ASCII). -/
def upper (s : List Char) : List Char := s.map Char.toUpper

/-- Python `str.strip()`: remove leading and trailing whitespace. -/
def pstrip (s : List Char) : List Char :=
  ((s.dropWhile Char.isWhitespace).reverse.dropWhile Char.isWhitespace).reverse

/-- Executable addition on `ℚ` (see the header note). -/
def qadd (a b : ℚ) : ℚ := Rat.divInt (a.num * b.den + b.num * a.den) (a.den * b.den)

/-- Executable subtraction on `ℚ`. -/
def qsub (a b : ℚ) : ℚ := Rat.divInt (a.num * b.den - b.num * a.den) (a.den * b.den)

/-- Executable multiplication on `ℚ`. -/
def qmul (a b : ℚ) : ℚ := Rat.divInt (a.num * b.num) (a.den * b.den)

/-- Executable division on `ℚ`. -/
def qdiv (a b : ℚ) : ℚ := Rat.divInt (a.num * b.den) (a.den * b.num)

/-- Executable floor `ℚ → ℤ`. -/
def floorQ (q : ℚ) : ℤ := q.num.fdiv (q.den : ℤ)

/-- Python `int(x)`: truncation toward zero. -/
def truncInt (q : ℚ) : ℤ := if 0 ≤ q then floorQ q else -(floorQ (-q))

/-- Python `round(x, 2)` on the model rationals (see the header note). -/
def round2 (x : ℚ) : ℚ := qdiv ((floorQ (qadd (qmul x 100) (qdiv 1 2)) : ℤ) : ℚ) 100

/-- Python dict lookup (`d.get(k)` / `k in d` + `d[k]`) on an association
list whose keys are unique. -/
def dict_get {α : Type} (l : List (List Char × α)) (key : List Char) : Option α :=
  (l.find? (fun e => e.1 = key)).map (fun e => e.2)

/-- The global `random` module: the stream of outcomes of successive
primitive calls, plus the cursor position (see the header note). -/
structure RandState where
  draws : ℕ → ℚ
  pos : ℕ

/-- Consume one outcome of a `random` primitive call. -/
def next_draw (rs : RandState) : ℚ × RandState :=
  (rs.draws rs.pos, ⟨rs.draws, rs.pos + 1⟩)

/-- Consume one outcome interpreted as the integer result of
`random.randint` (truncated to `ℕ`). -/
def draw_nat (rs : RandState) : ℕ × RandState :=
  let (d, rs') := next_draw rs
  ((floorQ d).toNat, rs')

/-- One OHLCV bar, as built by both `generate_mock_chart_data` and the
Polygon response processing: `{"date": …, "open": …, "high": …, "low": …,
"close": …, "volume": …}`. `date` is milliseconds since the epoch. -/
structure ChartPoint where
  date : ℤ
  open_ : ℚ
  high : ℚ
  low : ℚ
  close : ℚ
  volume : ℤ
deriving DecidableEq

/-- The JSON object `get_chart_data`/`generate_mock_chart_data` return
(as a JSON string in Python; the embedding keeps it structured —
`json.dumps`/`json.loads` round-trip is the identity on this model):
`{"ticker": …, "timeframe": …, ["error": …,] "data": […]}`. -/
structure ChartSeries where
  ticker : List Char
  timeframe : List Char
  error : Option (List Char)
  data : List ChartPoint
deriving DecidableEq

def msPerHour : ℤ := 3600000
def msPerDay : ℤ := 86400000

/-- `ticker_prices` table of `generate_mock_chart_data`
(websocket.py lines 246-266); all values are whole floats. -/
def ticker_prices : List (List Char × ℚ) :=
  [(chars "AAPL", 175), (chars "MSFT", 330), (chars "AMZN", 135), (chars "GOOGL", 140),
   (chars "META", 315), (chars "TSLA", 180), (chars "NVDA", 430), (chars "JPM", 180),
   (chars "V", 270), (chars "WMT", 60), (chars "PG", 160), (chars "JNJ", 150),
   (chars "UNH", 450), (chars "HD", 330), (chars "BAC", 36), (chars "PFE", 27),
   (chars "SPY", 463), (chars "QQQ", 415), (chars "DIA", 380)]

/-- `base_price = ticker_prices.get(ticker)`, else
`50 + (sum(ord(c) for c in ticker) % 300)` (lines 309-314).
The argument is the already-uppercased ticker. -/
def base_price_of (tickerU : List Char) : ℚ :=
  match dict_get ticker_prices tickerU with
  | some p => p
  | none => ((50 + (tickerU.map Char.toNat).sum % 300 : ℕ) : ℚ)

/-- The per-timeframe table of lines 268-305: number of points, the
`timedelta` subtracted from `now`, the spacing between points, the
volatility factor, and whether the advance loop skips weekends (the
code's condition `interval.days == 1 and timeframe != "5Y"`, line 393,
evaluated per timeframe). -/
structure TimeframeParams where
  points : ℕ
  start_delta : ℤ
  interval : ℤ
  volatility_factor : ℚ
  daily_spacing : Bool

def timeframe_params (timeframe : List Char) : TimeframeParams :=
  if timeframe = chars "1D" then ⟨24, msPerDay, msPerHour, qdiv 1 5, false⟩
  else if timeframe = chars "1W" then ⟨7, 7 * msPerDay, msPerDay, qdiv 1 2, true⟩
  else if timeframe = chars "1M" then ⟨22, 30 * msPerDay, msPerDay, 1, true⟩
  else if timeframe = chars "3M" then ⟨65, 90 * msPerDay, msPerDay, 2, true⟩
  else if timeframe = chars "1Y" then ⟨52, 52 * 7 * msPerDay, 7 * msPerDay, 4, false⟩
  else if timeframe = chars "5Y" then ⟨60, 5 * 365 * msPerDay, 30 * msPerDay, 8, false⟩
  else ⟨22, 30 * msPerDay, msPerDay, 1, true⟩

/-- Python `date.weekday()` for a millisecond timestamp
(Monday = 0 … Sunday = 6; the epoch day is a Thursday = 3). -/
def weekday (t : ℤ) : ℤ := (t.fdiv msPerDay + 3).emod 7

/-- Lines 392-399: `current_date += interval`, then for daily spacing
`while current_date.weekday() > 4: current_date += timedelta(days=1)`
(the loop runs at most twice: Saturday advances two days, Sunday one). -/
def advance_date (daily_spacing : Bool) (interval t : ℤ) : ℤ :=
  if daily_spacing then
    let t' := t + interval
    if weekday t' = 5 then t' + 2 * msPerDay
    else if weekday t' = 6 then t' + msPerDay
    else t'
  else t + interval

/-- The loop-invariant parameters of the point loop of
`generate_mock_chart_data` (fixed before line 337). -/
structure MockParams where
  base_price : ℚ
  volatility : ℚ
  trend_strength : ℚ
  event_days : List ℕ
  interval : ℤ
  daily_spacing : Bool

/-- The body of one iteration of `for i in range(points)`
(lines 337-390).  Arguments: the loop index `i`,
`chart_data[-1]["close"]` (`none` on the first iteration — the stored
closes are the rounded ones, so this carries the previous iteration's
`round(current_price, 2)`), `current_price`, `current_date`, and the
RNG stream.  Returns the appended bar, the updated `current_price` and
the advanced RNG stream. -/
def mock_step (p : MockParams) (i : ℕ) (prev_close : Option ℚ) (price0 : ℚ)
    (current_date : ℤ) (rs : RandState) : ChartPoint × ℚ × RandState :=
    -- trend_change = current_price * trend_strength * 0.01
    let trend_change := qmul (qmul price0 p.trend_strength) (qdiv 1 100)
    -- random_change = random.normalvariate(0, volatility)
    let (random_change, rs) := next_draw rs
    -- event_change = random.choice([-1, 1]) * volatility * random.uniform(2, 5)
    let (event_change, rs) :=
      if i ∈ p.event_days then
        let (c, rs) := next_draw rs
        let (u, rs) := next_draw rs
        (qmul (qmul c p.volatility) (qadd 2 (qmul 3 u)), rs)
      else ((0 : ℚ), rs)
    let day_change := qadd (qadd trend_change random_change) event_change
    -- current_price = max(current_price + day_change, base_price * 0.5)
    let current_price := max (qadd price0 day_change) (qmul p.base_price (qdiv 1 2))
    -- open: previous close, or current_price * (1 + normalvariate(0, 0.003))
    let (open_price, rs) :=
      match prev_close with
      | some c => (c, rs)
      | none =>
        let (d, rs) := next_draw rs
        (qmul current_price (qadd 1 d), rs)
    -- high/low = max/min(open, current) ± abs(normalvariate(0, daily_volatility))
    let (hn, rs) := next_draw rs
    let high := qadd (max open_price current_price) |hn|
    let (ln, rs) := next_draw rs
    let low := qsub (min open_price current_price) |ln|
    -- high = max(high, open_price * 1.001, current_price * 1.001)
    let high := max (max high (qmul open_price (qdiv 1001 1000))) (qmul current_price (qdiv 1001 1000))
    -- low = min(low, open_price * 0.999, current_price * 0.999)
    let low := min (min low (qmul open_price (qdiv 999 1000))) (qmul current_price (qdiv 999 1000))
    -- volume = int(base_volume * volume_multiplier * random.uniform(0.8, 1.2))
    let base_volume := qmul p.base_price 10000
    let volume_multiplier := qadd 1 (qmul (qdiv |day_change| p.base_price) 10)
    let volume_multiplier :=
      if i ∈ p.event_days then qmul volume_multiplier 3 else volume_multiplier
    let (u, rs) := next_draw rs
    let volume := truncInt (qmul (qmul base_volume volume_multiplier)
      (qadd (qdiv 4 5) (qmul (qdiv 2 5) u)))
    let point : ChartPoint :=
      ⟨current_date, round2 open_price, round2 high, round2 low, round2 current_price, volume⟩
    (point, current_price, rs)

/-- `for i in range(points)` (lines 337-399): iterate `mock_step`,
passing the stored close of the bar just appended as the next
`chart_data[-1]["close"]` and advancing the date per `advance_date`. -/
def mock_point_loop (p : MockParams) :
    ℕ → ℕ → Option ℚ → ℚ → ℤ → RandState → List ChartPoint × RandState
  | 0, _, _, _, _, rs => ([], rs)
  | n + 1, i, prev_close, price0, current_date, rs =>
    let s := mock_step p i prev_close price0 current_date rs
    let rest := mock_point_loop p n (i + 1) (some s.1.close) s.2.1
      (advance_date p.daily_spacing p.interval current_date) s.2.2
    (s.1 :: rest.1, rest.2)

/-- `event_days = [random.randint(1, points - 1) for _ in range(num_events)]`
(line 335). -/
def event_days_loop : ℕ → RandState → List ℕ × RandState
  | 0, rs => ([], rs)
  | n + 1, rs =>
    let k := draw_nat rs
    let rest := event_days_loop n k.2
    (k.1 :: rest.1, rest.2)

/-- Does every stream element consumed by the `random.uniform(0.8, 1.2)`
call of line 380 — and only those elements — hold a nonnegative value,
over the remaining iterations of the point loop?  One `mock_step`
starting with cursor `pos` consumes, in order: the `normalvariate`
random-change draw, on event days the `choice` and `uniform(2, 5)`
draws, on the first iteration the `normalvariate` open draw, the two
`normalvariate` high/low-offset draws, and finally the
`uniform(0.8, 1.2)` volume draw — so the volume draw sits `c - 1`
positions after `pos`, where `c` is the step's total consumption.
(A real RNG satisfies this on every run: `uniform(0.8, 1.2)` is
implemented as `0.8 + 0.4 * random()` with `random() ∈ [0, 1)`.)
Only the `none`/`some`-ness of the `prev_close` argument matters. -/
def mock_loop_uniform_ok (event_days : List ℕ) : ℕ → ℕ → Option ℚ → RandState → Bool
  | 0, _, _, _ => true
  | n + 1, i, pc, rs =>
    let c := (if i ∈ event_days then 2 else 0) + (match pc with | none => 5 | some _ => 4)
    decide (0 ≤ rs.draws (rs.pos + (c - 1)))
      && mock_loop_uniform_ok event_days n (i + 1) (some 0) ⟨rs.draws, rs.pos + c⟩

/-- `generate_mock_chart_data(ticker, timeframe)` (lines 240-407).
`now` is `datetime.now()` in epoch milliseconds; `rs` is the global
`random` stream. -/
def generate_mock_chart_data (ticker timeframe : List Char) (now : ℤ) (rs : RandState) :
    ChartSeries × RandState :=
  let p := timeframe_params timeframe
  let start_date := now - p.start_delta
  let tickerU := upper ticker
  let base_price := base_price_of tickerU
  -- trend_direction = 1 if random.random() > 0.4 else -1
  let (d0, rs) := next_draw rs
  let trend_direction : ℚ := if qdiv 2 5 < d0 then 1 else -1
  -- trend_strength = random.uniform(0.1, 0.3) * volatility_factor * trend_direction
  let (d1, rs) := next_draw rs
  let trend_strength :=
    qmul (qmul (qadd (qdiv 1 10) (qmul (qdiv 1 5) d1)) p.volatility_factor) trend_direction
  -- volatility = base_price * 0.01 * volatility_factor; 1D additionally *= 0.3
  let volatility := qmul (qmul base_price (qdiv 1 100)) p.volatility_factor
  let volatility :=
    if timeframe = chars "1D" then qmul volatility (qdiv 3 10) else volatility
  -- if points > 10: num_events = random.randint(1, min(3, points // 10)); event_days = […]
  let ed :=
    if 10 < p.points then
      let ne := draw_nat rs
      event_days_loop ne.1 ne.2
    else (([] : List ℕ), rs)
  let res := mock_point_loop
    ⟨base_price, volatility, trend_strength, ed.1, p.interval, p.daily_spacing⟩
    p.points 0 none base_price start_date ed.2
  (⟨tickerU, timeframe, none, res.1⟩, res.2)

/-- `mock_loop_uniform_ok` lifted to a whole `generate_mock_chart_data`
run: skip the trend-direction and trend-strength draws and the
event-day draws exactly as the generator consumes them, then require
the volume-uniform elements of the point loop to be nonnegative.
Every real RNG run satisfies this (see `mock_loop_uniform_ok`); the
`normalvariate` and `choice` elements remain unconstrained. -/
def generate_uniform_ok (_ticker timeframe : List Char) (rs : RandState) : Bool :=
  let p := timeframe_params timeframe
  let d0 := next_draw rs
  let d1 := next_draw d0.2
  let ed :=
    if 10 < p.points then
      let ne := draw_nat d1.2
      event_days_loop ne.1 ne.2
    else (([] : List ℕ), d1.2)
  mock_loop_uniform_ok ed.1 p.points 0 none ed.2

/-- `API_CALL_DELAY = 5  # seconds between API calls` (line 23). -/
def API_CALL_DELAY : ℚ := 5

/-- The module-level mutable state used by `get_chart_data`:
`api_cache = {}` (line 20) and `last_api_call_time = 0` (line 22). -/
structure FetchState where
  api_cache : List (List Char × ChartSeries)
  last_api_call_time : ℚ
deriving DecidableEq

/-- The outcome of the Polygon HTTP request (the part of the `try` body
from `client.get` through `response.json()`):

* `resp results errorField` — a 200 response; `results` is the mapped
  bar list when the `"results"` key is present (lines 163-173),
  `errorField` the `"error"` key;
* `httpError status` — `raise_for_status()` raised
  `httpx.HTTPStatusError` with this status code;
* `exception msg` — any other exception inside the `try` block
  (network failure, parse failure, …). -/
inductive RemoteResult
  | resp (results : Option (List ChartPoint)) (errorField : Option (List Char))
  | httpError (status : ℕ)
  | exception (msg : List Char)
deriving DecidableEq

/-- The error JSON `get_chart_data` builds on failure:
`{"error": …, "ticker": …, "timeframe": …, "data": []}`. -/
def error_series (msg ticker timeframe : List Char) : ChartSeries :=
  ⟨ticker, timeframe, some msg, []⟩

/-- Return value plus the state `get_chart_data` leaves behind.
`made_api_call` records whether the Polygon request was issued (the
call of `client.get`, line 157). -/
structure FetchResult where
  series : ChartSeries
  state : FetchState
  rand : RandState
  made_api_call : Bool

/-- `get_chart_data(ticker, timeframe)` (lines 71-237).

Inputs beyond the Python arguments: `now` is the `time.time()` read at
line 81, `now2` the second read at line 152 (an attempted remote call
sets `last_api_call_time = now2` immediately before issuing the
request; a monotone clock gives `now ≤ now2`), `api_key_set` whether
`POLYGON_API_KEY` is configured, `remote` the outcome of the remote
request were it issued, `mock_now` the `datetime.now()` the synthetic
generator would read, `st` the module state and `rs` the RNG stream. -/
def get_chart_data (ticker timeframe : List Char) (now now2 : ℚ) (api_key_set : Bool)
    (remote : RemoteResult) (mock_now : ℤ) (st : FetchState) (rs : RandState) : FetchResult :=
  -- cache_key = f"{ticker.upper()}_{timeframe}"
  let cache_key := upper ticker ++ '_' :: timeframe
  match dict_get st.api_cache cache_key with
  | some cached => ⟨cached, st, rs, false⟩
  | none =>
    -- if time_since_last_call < API_CALL_DELAY: fall back to mock data
    if qsub now st.last_api_call_time < API_CALL_DELAY then
      let mock := generate_mock_chart_data ticker timeframe mock_now rs
      ⟨mock.1, st, mock.2, false⟩
    else if api_key_set = false then
      ⟨error_series
        (chars "Polygon API key not configured. Please add your API key to the .env file.")
        ticker timeframe, st, rs, false⟩
    else
      -- ticker = ticker.upper()  (line 105)
      let tickerU := upper ticker
      -- last_api_call_time = time.time()  (line 152, just before the request)
      let st1 : FetchState := ⟨st.api_cache, now2⟩
      match remote with
      | .resp results errorField =>
        match results with
        | some (b :: bs) =>
          -- "results" present and non-empty: build, cache, return
          let result : ChartSeries := ⟨tickerU, timeframe, none, b :: bs⟩
          ⟨result, ⟨(cache_key, result) :: st1.api_cache, st1.last_api_call_time⟩, rs, true⟩
        | _ =>
          match errorField with
          | some msg =>
            ⟨error_series (chars "Polygon API error: " ++ msg) tickerU timeframe, st1, rs, true⟩
          | none =>
            ⟨error_series (chars "No data available in the specified timeframe")
              tickerU timeframe, st1, rs, true⟩
      | .httpError status =>
        if status = 403 then
          ⟨error_series (chars "Authentication error with Polygon API. Please check your API key.")
            tickerU timeframe, st1, rs, true⟩
        else if status = 429 then
          -- rate limited: fall back to mock data and cache it
          let mock := generate_mock_chart_data tickerU timeframe mock_now rs
          ⟨mock.1, ⟨(cache_key, mock.1) :: st1.api_cache, st1.last_api_call_time⟩, mock.2, true⟩
        else
          ⟨error_series (chars "Error calling Polygon API") tickerU timeframe, st1, rs, true⟩
      | .exception msg =>
        ⟨error_series (chars "Error fetching chart data: " ++ msg) tickerU timeframe, st1, rs, true⟩

/-- `\w` of Python `re` (ASCII fragment: the texts involved are ASCII). -/
def isWordChar (c : Char) : Bool := c.isAlphanum || c = '_'

/-- The regex constructs used by the seven `ticker_patterns`
(lines 491-499): a literal, `\s+`, the single capture group
`([A-Z]{1,5})`, a literal alternation `(?:a|b|…)`, an optional literal
`(?:a)?`, and the word boundary `\b`. -/
inductive Tok
  | lit (s : List Char)
  | ws
  | grp
  | alts (ss : List (List Char))
  | opt (s : List Char)
  | wb
deriving DecidableEq

/-- Does `s` occur literally at position `p` of `text`? -/
def matchesAt (s text : List Char) (p : ℕ) : Bool :=
  (text.drop p).take s.length = s

/-- Length of the maximal run at position `p` of characters satisfying
`f`, capped at `cap`. -/
def runLen (f : Char → Bool) (text : List Char) (p cap : ℕ) : ℕ :=
  ((text.drop p).take cap).takeWhile f |>.length

/-- `[cap, cap-1, …, 1]`: the candidate consumption lengths of a greedy
quantifier, longest first (Python `re` backtracking order). -/
def greedyLens (cap : ℕ) : List ℕ :=
  (List.range cap).map (fun j => cap - j)

/-- Is `'A' ≤ c ≤ 'Z'`? -/
def isUpperAZ (c : Char) : Bool := 'A' ≤ c && c ≤ 'Z'

/-- Backtracking matcher for one pattern (a `List Tok`) anchored at
position `p` of `text`; returns the end position and the capture of the
single group on success.  Mirrors Python `re` semantics for these
constructs: alternatives are tried in order, `\s+` and `([A-Z]{1,5})`
greedily (longest first), `(?:a)?` with the literal present first.
`fuel` only drives the recursion; `fuel = toks.length + 1` suffices
(every recursive call drops one token). -/
def matchToks (text : List Char) : ℕ → List Tok → ℕ → Option (ℕ × List Char)
  | 0, _, _ => none
  | _ + 1, [], p => some (p, [])
  | fuel + 1, t :: ts, p =>
    match t with
    | .lit s => if matchesAt s text p then matchToks text fuel ts (p + s.length) else none
    | .ws =>
      (greedyLens (runLen Char.isWhitespace text p (text.length - p))).findSome?
        (fun k => matchToks text fuel ts (p + k))
    | .grp =>
      (greedyLens (runLen isUpperAZ text p 5)).findSome?
        (fun k =>
          match matchToks text fuel ts (p + k) with
          | some (e, _) => some (e, (text.drop p).take k)
          | none => none)
    | .alts ss =>
      ss.findSome? (fun s =>
        if matchesAt s text p then matchToks text fuel ts (p + s.length) else none)
    | .opt s =>
      match (if matchesAt s text p then matchToks text fuel ts (p + s.length) else none) with
      | some r => some r
      | none => matchToks text fuel ts p
    | .wb =>
      let before := match text.get? (p - 1) with
        | some c => p ≠ 0 && isWordChar c
        | none => false
      let here := match text.get? p with
        | some c => isWordChar c
        | none => false
      if before ≠ here then matchToks text fuel ts p else none

/-- `re.findall(pattern, text)` for a single-group pattern: scan left to
right, at each position try the anchored match; on success record the
capture and resume after the match (all these patterns consume at least
one character, so the resume position advances). -/
def findall_captures (pat : List Tok) (text : List Char) : ℕ → ℕ → List (List Char)
  | 0, _ => []
  | fuel + 1, p =>
    if p > text.length then []
    else
      match matchToks text (pat.length + 1) pat p with
      | some (e, cap) => cap :: findall_captures pat text fuel (max e (p + 1))
      | none => findall_captures pat text fuel (p + 1)

def findall (pat : List Tok) (text : List Char) : List (List Char) :=
  findall_captures pat text (text.length + 1) 0

/-- `ticker_patterns` (lines 491-499), in order:
`for\s+([A-Z]{1,5})\b`, `about\s+([A-Z]{1,5})\b`,
`([A-Z]{1,5})\s+(?:stock|ticker|price|shares)\b`,
`([A-Z]{1,5})\s+is\s+(?:trading|priced|currently)`,
`stock\s+(?:symbol|ticker)\s+([A-Z]{1,5})\b`,
`ticker\s+(?:symbol)?\s+([A-Z]{1,5})\b`,
`(?:price of|looking at)\s+([A-Z]{1,5})\b`. -/
def ticker_patterns : List (List Tok) :=
  [[.lit (chars "for"), .ws, .grp, .wb],
   [.lit (chars "about"), .ws, .grp, .wb],
   [.grp, .ws, .alts [chars "stock", chars "ticker", chars "price", chars "shares"], .wb],
   [.grp, .ws, .lit (chars "is"), .ws,
    .alts [chars "trading", chars "priced", chars "currently"]],
   [.lit (chars "stock"), .ws, .alts [chars "symbol", chars "ticker"], .ws, .grp, .wb],
   [.lit (chars "ticker"), .ws, .opt (chars "symbol"), .ws, .grp, .wb],
   [.alts [chars "price of", chars "looking at"], .ws, .grp, .wb]]

/-- `valid_tickers` (lines 503-528): the fixed 24-symbol allow-list. -/
def valid_tickers : List (List Char) :=
  [chars "AAPL", chars "MSFT", chars "GOOGL", chars "GOOG", chars "AMZN", chars "META",
   chars "TSLA", chars "NVDA", chars "AMD", chars "INTC", chars "IBM", chars "CSCO",
   chars "ORCL", chars "ADBE", chars "CRM", chars "NFLX", chars "PYPL", chars "QCOM",
   chars "TXN", chars "SPY", chars "QQQ", chars "DIA", chars "VTI", chars "VOO"]

/-- The ticker scan of lines 597-612: for each pattern in order, for
each `findall` capture in order, the first capture that is in
`valid_tickers` wins. -/
def extract_ticker (text : List Char) : Option (List Char) :=
  ticker_patterns.findSome? (fun pat =>
    (findall pat text).find? (fun cap => cap ∈ valid_tickers))

/-- `UserConnection` (lines 26-30).  `websocket` is the opaque transport
handle, modelled as a number (Python compares transport handles by
identity, `conn.websocket != exclude.websocket`). -/
structure UserConnection where
  websocket : ℕ
  user_id : List Char
  username : List Char
deriving DecidableEq

/-- `ConnectionManager.broadcast` (lines 57-60):

    for connection in self.active_connections:
        if exclude is None or connection.websocket != exclude.websocket:
            await connection.websocket.send_json(message)

`send_ok w` tells whether `send_json` on transport `w` succeeds; a
failed send raises, which aborts the `for` loop (there is no
per-connection `try`), so the remaining connections receive nothing.
Returns the connections that received the message and whether the loop
ran to completion.  `excludedBy` is the exclusion test of line 59. -/
def excludedBy (exclude : Option UserConnection) (c : UserConnection) : Bool :=
  match exclude with
  | some e => c.websocket = e.websocket
  | none => false

def broadcast (conns : List UserConnection) (exclude : Option UserConnection)
    (send_ok : ℕ → Bool) : List UserConnection × Bool :=
  match conns with
  | [] => ([], true)
  | c :: rest =>
    if excludedBy exclude c then
      broadcast rest exclude send_ok
    else if send_ok c.websocket then
      let (d, ok) := broadcast rest exclude send_ok
      (c :: d, ok)
    else ([], false)

/-- The per-connection protocol states of the spec's state machine. -/
inductive ConnState
  | AWAITING_HANDSHAKE
  | ACTIVE
deriving DecidableEq

/-- The parsed JSON object of the first message a client sends
(only the fields the handshake code reads). -/
structure FirstMessage where
  type : List Char
  username : Option (List Char)

/-- What the handshake step leaves behind: the chosen display name, the
protocol state reached, and the error events unicast to the sender. -/
structure HandshakeResult where
  username : List Char
  state : ConnState
  errors_sent : List (List Char)
deriving DecidableEq

/-- The handshake of `websocket_chat` (lines 413-424): the first
received message is parsed and

    username = connect_data.get("username", f"User-{user_id[:6]}")

then the connection is registered and is active.  The message's `type`
is never inspected and no rejection is possible: any well-formed JSON
first message — whatever its type — completes the handshake. -/
def handshake_first_message (user_id : List Char) (msg : FirstMessage) : HandshakeResult :=
  { username := msg.username.getD (chars "User-" ++ user_id.take 6),
    state := .ACTIVE,
    errors_sent := [] }

/-- The outbound events `websocket_chat` broadcasts/unicasts, one
constructor per `"type"` value, carrying the payload fields the claims
are about. -/
inductive Event
  | system (content : List Char)
  | chat (user_id username content timestamp : List Char)
  | typing (user_id username : List Char)
  | ai_stream (content : List Char)
  | tool_call (tool_name status : List Char) (ticker : Option (List Char))
  | error (content : List Char)
  | ai_complete
  | chart_data (data : ChartSeries) (ai_requested : Bool) (requested_by : Option (List Char))
  | update_chart (ticker : List Char)
deriving DecidableEq

/-- The `"type"` string of an outbound event. -/
def event_type : Event → List Char
  | .system _ => chars "system"
  | .chat _ _ _ _ => chars "chat"
  | .typing _ _ => chars "typing"
  | .ai_stream _ => chars "ai_stream"
  | .tool_call _ _ _ => chars "tool_call"
  | .error _ => chars "error"
  | .ai_complete => chars "ai_complete"
  | .chart_data _ _ _ => chars "chart_data"
  | .update_chart _ => chars "update_chart"

/-- One chunk of the AI collaborator's stream (`async for chunk in await
run_agent(...)`, line 532): a dict with an `"output"`, `"tool_call"` or
`"tool_result"` key.  For `tool_call`, the `arguments` dict may carry
`ticker` and `timeframe`. -/
inductive AgentChunk
  | output (s : List Char)
  | tool_call (name : List Char) (ticker : Option (List Char)) (timeframe : Option (List Char))
  | tool_result (name : List Char)

/-- The mutable locals of the streaming loop (initialised at
lines 485-488) together with the events broadcast so far. -/
structure StreamAcc where
  ai_response : List Char
  stock_chart_requested : Bool
  chart_ticker : Option (List Char)
  chart_timeframe : List Char
  events : List Event

/-- One iteration of the streaming loop (lines 532-582). -/
def stream_step (acc : StreamAcc) : AgentChunk → StreamAcc
  | .output s =>
    { acc with
      ai_response := acc.ai_response ++ s,
      events := acc.events ++ [Event.ai_stream s] }
  | .tool_call name tickerArg timeframeArg =>
    -- ticker = args.get("ticker", "unknown")
    let ticker := tickerArg.getD (chars "unknown")
    let acc :=
      if name = chars "PolygonStockChartTool" then
        { acc with
          stock_chart_requested := true,
          chart_ticker := some ticker,
          chart_timeframe := timeframeArg.getD (chars "1W") }
      else acc
    { acc with events := acc.events ++ [Event.tool_call name (chars "started") (some ticker)] }
  | .tool_result name =>
    { acc with events := acc.events ++ [Event.tool_call name (chars "completed") none] }

def stream_fold (chunks : List AgentChunk) : StreamAcc :=
  chunks.foldl stream_step ⟨[], false, none, chars "1W", []⟩

/-- What one `"chat"` message leaves behind: the broadcast events in
order, the `get_chart_data` calls made (ticker, timeframe), and the
module state afterwards. -/
structure ChatResult where
  events : List Event
  fetch_calls : List (List Char × List Char)
  state : FetchState
  rand : RandState

/-- Lines 622-638: `if stock_chart_requested and chart_ticker:` fetch
`get_chart_data(chart_ticker, "1W")` — the literal `"1W"`, not the
requested `chart_timeframe` — and broadcast `chart_data` then
`update_chart`.  Returns the events, the fetch calls made and the
resulting module state. -/
def chart_block (requested : Bool) (tick : Option (List Char)) (now now2 : ℚ)
    (api_key_set : Bool) (remote : RemoteResult) (mock_now : ℤ) (st : FetchState)
    (rs : RandState) :
    List Event × List (List Char × List Char) × FetchState × RandState :=
  match tick with
  | some t =>
    if requested ∧ t ≠ [] then
      -- "Always use 1W timeframe regardless of what was requested"
      let r := get_chart_data t (chars "1W") now now2 api_key_set remote mock_now st rs
      ([Event.chart_data r.series true none, Event.update_chart t],
       [(t, chars "1W")], r.state, r.rand)
    else ([], [], st, rs)
  | none => ([], [], st, rs)

/-- The `message_type == "chat"` branch of `websocket_chat`
(lines 443-648).  `chunks` is the AI collaborator's stream,
`stream_error` an exception it raised after the listed chunks (caught
at line 583 and broadcast as an error event); the remaining arguments
feed `get_chart_data` as in its own definition. -/
def handle_chat (user_id username content timestamp : List Char) (ai_toggle : Bool)
    (chunks : List AgentChunk) (stream_error : Option (List Char))
    (now now2 : ℚ) (api_key_set : Bool) (remote : RemoteResult) (mock_now : ℤ)
    (st : FetchState) (rs : RandState) : ChatResult :=
  -- if not content.strip(): continue
  if content.all Char.isWhitespace then ⟨[], [], st, rs⟩
  else
    let user_message := Event.chat user_id username content timestamp
    if ai_toggle = false then ⟨[user_message], [], st, rs⟩
    else
      let typing_message := Event.typing (chars "ai") (chars "AlphaGain")
      let acc := stream_fold chunks
      let error_events :=
        match stream_error with
        | some m => [Event.error (chars "Error generating response: " ++ m)]
        | none => []
      -- lines 594-612: scan the accumulated AI response for a ticker
      let scanned :=
        if acc.stock_chart_requested = false ∧ acc.ai_response ≠ [] then
          match extract_ticker acc.ai_response with
          | some t => { acc with stock_chart_requested := true, chart_ticker := some t }
          | none => acc
        else acc
      -- line 615: ai_complete; lines 622-638: the chart block
      let chart_part := chart_block scanned.stock_chart_requested scanned.chart_ticker
        now now2 api_key_set remote mock_now st rs
      ⟨user_message :: typing_message :: acc.events ++ error_events
         ++ [Event.ai_complete] ++ chart_part.1,
       chart_part.2.1, chart_part.2.2.1, chart_part.2.2.2⟩

/-- What one `"chart_request"` message leaves behind; `personal` holds
the error events unicast to the requesting client only. -/
structure ChartRequestResult where
  events : List Event
  personal : List Event
  fetch_calls : List (List Char × List Char)
  state : FetchState
  rand : RandState

/-- The `message_type == "chart_request"` branch (lines 650-687):
`ticker = message_data.get("ticker", "").strip().upper()`, the
timeframe is the fixed `"1W"`, an empty or non-allow-listed ticker is
answered with a personal error, otherwise the chart is fetched and
broadcast. -/
def handle_chart_request (user_id : List Char) (ticker_field : Option (List Char))
    (now now2 : ℚ) (api_key_set : Bool) (remote : RemoteResult) (mock_now : ℤ)
    (st : FetchState) (rs : RandState) : ChartRequestResult :=
  let ticker := upper (pstrip (ticker_field.getD []))
  -- Always use 1W timeframe regardless of what's requested
  let timeframe := chars "1W"
  if ticker = [] then
    ⟨[], [Event.error (chars "No ticker symbol provided")], [], st, rs⟩
  else if ticker ∉ valid_tickers then
    ⟨[], [Event.error (chars "Invalid ticker symbol")], [], st, rs⟩
  else
    let r := get_chart_data ticker timeframe now now2 api_key_set remote mock_now st rs
    ⟨[Event.chart_data r.series false (some user_id)], [], [(ticker, timeframe)],
     r.state, r.rand⟩

/-- The price/volume fields of a bar, without its date (used to state
which outputs of the synthetic generator depend on the clock). -/
def price_fields (p : ChartPoint) : ℚ × ℚ × ℚ × ℚ × ℤ :=
  (p.open_, p.high, p.low, p.close, p.volume)

/-- Are the bar dates strictly ascending? -/
def dates_ascending : List ChartPoint → Bool
  | [] => true
  | [_] => true
  | a :: b :: t => (a.date < b.date) && dates_ascending (b :: t)

/-- Is this event an AI-requested `chart_data` event for ticker `tk`
with a non-empty, date-ascending bar list? -/
def chart_data_ok (e : Option Event) (tk : List Char) : Bool :=
  match e with
  | some (.chart_data d ai _) => d.ticker = tk && !d.data.isEmpty && dates_ascending d.data && ai
  | _ => false

/-! ## Bridge lemmas for the executable rational operations -/

theorem qadd_eq (a b : ℚ) : qadd a b = a + b := by
  rw [qadd, ← Rat.divInt_add_divInt _ _ (by exact_mod_cast a.den_nz) (by exact_mod_cast b.den_nz),
    Rat.num_divInt_den, Rat.num_divInt_den]

theorem qsub_eq (a b : ℚ) : qsub a b = a - b := by
  rw [qsub, ← Rat.divInt_sub_divInt _ _ (by exact_mod_cast a.den_nz) (by exact_mod_cast b.den_nz),
    Rat.num_divInt_den, Rat.num_divInt_den]

theorem qmul_eq (a b : ℚ) : qmul a b = a * b := by
  rw [qmul, ← Rat.divInt_mul_divInt _ _ (by exact_mod_cast a.den_nz) (by exact_mod_cast b.den_nz),
    Rat.num_divInt_den, Rat.num_divInt_den]

theorem qdiv_eq (a b : ℚ) : qdiv a b = a / b := (Rat.div_def' a b).symm

theorem floorQ_eq (q : ℚ) : floorQ q = ⌊q⌋ := by
  rw [floorQ, Rat.floor_def, Int.fdiv_eq_ediv _ (by positivity)]

theorem truncInt_nonneg {q : ℚ} (h : 0 ≤ q) : 0 ≤ truncInt q := by
  rw [truncInt, if_pos h, floorQ_eq]
  exact Int.floor_nonneg.mpr h

theorem round2_mono {a b : ℚ} (h : a ≤ b) : round2 a ≤ round2 b := by
  rw [round2, round2, qdiv_eq, qdiv_eq, qadd_eq, qadd_eq, qmul_eq, qmul_eq,
    qdiv_eq, floorQ_eq, floorQ_eq]
  have : (⌊a * 100 + 1 / 2⌋ : ℤ) ≤ ⌊b * 100 + 1 / 2⌋ := by
    apply Int.floor_le_floor
    nlinarith
  gcongr

/-! ## The synthetic generator: OHLC invariant and clock-independence -/

theorem base_price_of_pos (t : List Char) : 0 < base_price_of t := by
  rw [base_price_of]
  rcases h : dict_get ticker_prices t with _ | p
  · simp only []
    positivity
  · simp only []
    -- every price in the table is positive; enumerate the possible lookups
    have hmem : p ∈ ticker_prices.map (fun e => e.2) := by
      rw [dict_get] at h
      rcases Option.map_eq_some'.mp h with ⟨e, he, rfl⟩
      exact List.mem_map_of_mem _ (List.mem_of_find?_eq_some he)
    fin_cases hmem <;> norm_num

theorem low_le_min (o c ln x y : ℚ) : min (min (qsub (min o c) |ln|) x) y ≤ min o c :=
  le_trans (le_trans (min_le_left _ _) (min_le_left _ _))
    (by rw [qsub_eq]; exact sub_le_self _ (abs_nonneg _))

theorem max_le_high (o c hn x y : ℚ) : max o c ≤ max (max (qadd (max o c) |hn|) x) y :=
  le_trans (by rw [qadd_eq]; exact le_add_of_nonneg_right (abs_nonneg _))
    (le_trans (le_max_left _ _) (le_max_left _ _))

theorem vol_nonneg {bv vm u : ℚ} (hbv : 0 ≤ bv) (hvm : 0 ≤ vm) (hu : 0 ≤ u) :
    0 ≤ truncInt (qmul (qmul bv vm) (qadd (qdiv 4 5) (qmul (qdiv 2 5) u))) := by
  apply truncInt_nonneg
  simp only [qadd_eq, qmul_eq, qdiv_eq]
  positivity

/-- The high/low bounds of every bar `mock_step` emits hold for **any**
draw stream: the raw high is `max(open, close)` plus an absolute value
and the raw low is `min(open, close)` minus one, the `1.001`/`0.999`
clamps only push them further out, and two-decimal rounding is
monotone — no sign assumption on any draw is needed. -/
theorem mock_step_bounds (p : MockParams) (i : ℕ) (pc : Option ℚ)
    (cp : ℚ) (cd : ℤ) (rs : RandState) :
    (mock_step p i pc cp cd rs).1.low
        ≤ min (mock_step p i pc cp cd rs).1.open_ (mock_step p i pc cp cd rs).1.close ∧
      max (mock_step p i pc cp cd rs).1.open_ (mock_step p i pc cp cd rs).1.close
        ≤ (mock_step p i pc cp cd rs).1.high := by
  rcases pc with _ | c <;> by_cases hev : i ∈ p.event_days <;>
      simp only [mock_step, next_draw, hev, if_true, if_false, ite_true, ite_false,
        reduceIte] <;>
    exact ⟨le_min (round2_mono ((low_le_min _ _ _ _ _).trans (min_le_left _ _)))
      (round2_mono ((low_le_min _ _ _ _ _).trans (min_le_right _ _))),
      max_le (round2_mono ((le_max_left _ _).trans (max_le_high _ _ _ _ _)))
        (round2_mono ((le_max_right _ _).trans (max_le_high _ _ _ _ _)))⟩

/-- `mock_step` leaves the stream unchanged and advances the cursor by
exactly its consumption count: the random-change draw, two event-day
draws when `i` is an event day, the open draw on the first iteration,
the high/low offset draws and the volume draw. -/
theorem mock_step_rand_state (p : MockParams) (i : ℕ) (pc : Option ℚ)
    (cp : ℚ) (cd : ℤ) (rs : RandState) :
    (mock_step p i pc cp cd rs).2.2
      = ⟨rs.draws, rs.pos + ((if i ∈ p.event_days then 2 else 0)
          + (match pc with | none => 5 | some _ => 4))⟩ := by
  rcases pc with _ | c <;> by_cases hev : i ∈ p.event_days <;>
    simp only [mock_step, next_draw, hev, if_true, if_false, ite_true, ite_false,
      reduceIte, RandState.mk.injEq, true_and]

/-- The volume of the bar `mock_step` emits is nonnegative provided
only that the single stream element consumed by the
`uniform(0.8, 1.2)` volume draw — the last element the step
consumes — is nonnegative.  The `normalvariate` and `choice` elements
are unconstrained. -/
theorem mock_step_volume_nonneg (p : MockParams) (hbp : 0 < p.base_price) (i : ℕ)
    (pc : Option ℚ) (cp : ℚ) (cd : ℤ) (rs : RandState)
    (hu : 0 ≤ rs.draws (rs.pos + (((if i ∈ p.event_days then 2 else 0)
        + (match pc with | none => 5 | some _ => 4)) - 1))) :
    0 ≤ (mock_step p i pc cp cd rs).1.volume := by
  have hbv : (0:ℚ) ≤ qmul p.base_price 10000 := by
    rw [qmul_eq]; positivity
  have hvm : ∀ dc : ℚ, (0:ℚ) ≤ qadd 1 (qmul (qdiv |dc| p.base_price) 10) := by
    intro dc
    rw [qadd_eq, qmul_eq, qdiv_eq]
    positivity
  have hvm3 : ∀ dc : ℚ, (0:ℚ) ≤ qmul (qadd 1 (qmul (qdiv |dc| p.base_price) 10)) 3 := by
    intro dc
    rw [qmul_eq]
    exact mul_nonneg (hvm dc) (by norm_num)
  rcases pc with _ | c
  · by_cases hev : i ∈ p.event_days
    · simp only [hev, if_true, ite_true, reduceIte] at hu ⊢
      simp only [mock_step, next_draw, hev, if_true, ite_true, reduceIte]
      exact vol_nonneg hbv (hvm3 _) hu
    · simp only [hev, if_false, ite_false, reduceIte] at hu ⊢
      simp only [mock_step, next_draw, hev, if_false, ite_false, reduceIte]
      exact vol_nonneg hbv (hvm _) hu
  · by_cases hev : i ∈ p.event_days
    · simp only [hev, if_true, ite_true, reduceIte] at hu ⊢
      simp only [mock_step, next_draw, hev, if_true, ite_true, reduceIte]
      exact vol_nonneg hbv (hvm3 _) hu
    · simp only [hev, if_false, ite_false, reduceIte] at hu ⊢
      simp only [mock_step, next_draw, hev, if_false, ite_false, reduceIte]
      exact vol_nonneg hbv (hvm _) hu

/-- `mock_loop_uniform_ok` only reads whether `prev_close` is `none`,
never its payload. -/
theorem mock_loop_uniform_ok_payload (event_days : List ℕ) (n i : ℕ) (a b : ℚ)
    (rs : RandState) :
    mock_loop_uniform_ok event_days n i (some a) rs
      = mock_loop_uniform_ok event_days n i (some b) rs := by
  cases n <;> rfl

/-- The loop version of `mock_step_bounds` and
`mock_step_volume_nonneg`: the high/low bounds hold for every bar and
every stream; the volumes are nonnegative whenever the stream elements
the volume-uniform draws consume are nonnegative. -/
theorem mock_point_loop_ohlc (p : MockParams) (hbp : 0 < p.base_price) :
    ∀ (n i : ℕ) (pc : Option ℚ) (cp : ℚ) (cd : ℤ) (rs : RandState),
      (∀ q ∈ (mock_point_loop p n i pc cp cd rs).1,
          q.low ≤ min q.open_ q.close ∧ max q.open_ q.close ≤ q.high) ∧
        (mock_loop_uniform_ok p.event_days n i pc rs = true →
          ∀ q ∈ (mock_point_loop p n i pc cp cd rs).1, 0 ≤ q.volume) := by
  intro n
  induction n with
  | zero =>
    intro i pc cp cd rs
    constructor
    · intro q hq
      simp [mock_point_loop] at hq
    · intro _ q hq
      simp [mock_point_loop] at hq
  | succ n ih =>
    intro i pc cp cd rs
    constructor
    · intro q hq
      rw [mock_point_loop] at hq
      rcases List.mem_cons.mp hq with rfl | hq'
      · exact mock_step_bounds p i pc cp cd rs
      · exact (ih (i + 1) _ _ _ _).1 q hq'
    · intro hok q hq
      simp only [mock_loop_uniform_ok, Bool.and_eq_true, decide_eq_true_eq] at hok
      obtain ⟨hu, hrest⟩ := hok
      rw [mock_point_loop] at hq
      rcases List.mem_cons.mp hq with rfl | hq'
      · exact mock_step_volume_nonneg p hbp i pc cp cd rs hu
      · refine (ih (i + 1) (some (mock_step p i pc cp cd rs).1.close)
          (mock_step p i pc cp cd rs).2.1
          (advance_date p.daily_spacing p.interval cd) (mock_step p i pc cp cd rs).2.2).2
          ?_ q hq'
        rw [mock_step_rand_state,
          mock_loop_uniform_ok_payload p.event_days n (i + 1)
            (mock_step p i pc cp cd rs).1.close 0]
        exact hrest

/-- A bar's price and volume fields, the updated price and the RNG
stream do not depend on the current date: only the `date` field does. -/
theorem mock_step_date_free (p : MockParams) (i : ℕ) (pc : Option ℚ) (cp : ℚ)
    (cd1 cd2 : ℤ) (rs : RandState) :
    price_fields (mock_step p i pc cp cd1 rs).1 = price_fields (mock_step p i pc cp cd2 rs).1 ∧
      (mock_step p i pc cp cd1 rs).2 = (mock_step p i pc cp cd2 rs).2 := by
  rcases pc with _ | c <;> by_cases hev : i ∈ p.event_days <;>
    simp [mock_step, next_draw, hev, price_fields]

/-- The loop version of `mock_step_date_free`. -/
theorem mock_point_loop_date_free (p : MockParams) :
    ∀ (n i : ℕ) (pc : Option ℚ) (cp : ℚ) (cd1 cd2 : ℤ) (rs : RandState),
      (mock_point_loop p n i pc cp cd1 rs).1.map price_fields
          = (mock_point_loop p n i pc cp cd2 rs).1.map price_fields ∧
        (mock_point_loop p n i pc cp cd1 rs).2 = (mock_point_loop p n i pc cp cd2 rs).2 := by
  intro n
  induction n with
  | zero =>
    intro i pc cp cd1 cd2 rs
    simp [mock_point_loop]
  | succ n ih =>
    intro i pc cp cd1 cd2 rs
    obtain ⟨h1, h2⟩ := mock_step_date_free p i pc cp cd1 cd2 rs
    have hc : (mock_step p i pc cp cd1 rs).1.close = (mock_step p i pc cp cd2 rs).1.close :=
      congrArg (fun t => t.2.2.2.1) h1
    have hp : (mock_step p i pc cp cd1 rs).2.1 = (mock_step p i pc cp cd2 rs).2.1 :=
      congrArg Prod.fst h2
    have hr : (mock_step p i pc cp cd1 rs).2.2 = (mock_step p i pc cp cd2 rs).2.2 :=
      congrArg Prod.snd h2
    simp only [mock_point_loop, List.map_cons]
    rw [hc, hp, hr]
    obtain ⟨ih1, ih2⟩ := ih (i + 1) (some (mock_step p i pc cp cd2 rs).1.close)
      ((mock_step p i pc cp cd2 rs).2.1)
      (advance_date p.daily_spacing p.interval cd1) (advance_date p.daily_spacing p.interval cd2)
      ((mock_step p i pc cp cd2 rs).2.2)
    exact ⟨by rw [h1, ih1], ih2⟩

/-- `event_days_loop` advances the stream cursor but never changes the
stream itself. -/
theorem event_days_loop_draws : ∀ (n : ℕ) (rs : RandState),
    (event_days_loop n rs).2.draws = rs.draws := by
  intro n
  induction n with
  | zero => intro rs; simp [event_days_loop]
  | succ n ih => intro rs; simp [event_days_loop, draw_nat, next_draw, ih]

/-- C4: for every ticker, every timeframe, every clock reading, and
**every** RNG stream — the `normalvariate` and `choice([-1, 1])`
outcomes are completely unconstrained, so every real run is covered —
every point of the series produced by `generate_mock_chart_data`
satisfies `low ≤ min(open, close)` and `max(open, close) ≤ high` (the
stored fields being the values after rounding to two decimal places);
and `volume ≥ 0` holds whenever the stream elements consumed by the
`uniform(0.8, 1.2)` volume draws are nonnegative
(`generate_uniform_ok`), which is true of every run of a real RNG,
where that call returns a value in `[0.8, 1.2)`. -/
theorem C4_generate_mock_ohlc_invariant (ticker timeframe : List Char) (now : ℤ)
    (rs : RandState) :
    (∀ q ∈ (generate_mock_chart_data ticker timeframe now rs).1.data,
        q.low ≤ min q.open_ q.close ∧ max q.open_ q.close ≤ q.high) ∧
      (generate_uniform_ok ticker timeframe rs = true →
        ∀ q ∈ (generate_mock_chart_data ticker timeframe now rs).1.data, 0 ≤ q.volume) := by
  constructor
  · intro q hq
    simp only [generate_mock_chart_data, next_draw] at hq
    by_cases h10 : 10 < (timeframe_params timeframe).points <;>
        simp only [h10, if_true, if_false, ite_true, ite_false] at hq <;>
      exact (mock_point_loop_ohlc _ (base_price_of_pos _) _ _ _ _ _ _).1 q hq
  · intro hok q hq
    simp only [generate_mock_chart_data, next_draw] at hq
    rw [generate_uniform_ok] at hok
    simp only [next_draw] at hok
    by_cases h10 : 10 < (timeframe_params timeframe).points <;>
        simp only [h10, if_true, if_false, ite_true, ite_false] at hq hok <;>
      exact (mock_point_loop_ohlc _ (base_price_of_pos _) _ _ _ _ _ _).2 hok q hq

/-- Witness for C4 at a concrete input: ticker `AAPL`, timeframe `1W`,
and a stream that is **negative** on every odd position — in this run
all the `normalvariate` high/low/open draws after the first step land
on negative values, the kind of run the invariant must (and does)
cover — while the volume-uniform positions (6, 10, 14, …, all even)
hold `1/2`, so `generate_uniform_ok` is satisfied. -/
theorem C4_witness :
    (generate_uniform_ok (chars "AAPL") (chars "1W")
        ⟨fun n => if n % 2 = 0 then qdiv 1 2 else -(qdiv 1 2), 0⟩ = true) ∧
      (∀ q ∈ (generate_mock_chart_data (chars "AAPL") (chars "1W") 1704067200000
            ⟨fun n => if n % 2 = 0 then qdiv 1 2 else -(qdiv 1 2), 0⟩).1.data,
        q.low ≤ min q.open_ q.close ∧ max q.open_ q.close ≤ q.high) ∧
      (∀ q ∈ (generate_mock_chart_data (chars "AAPL") (chars "1W") 1704067200000
            ⟨fun n => if n % 2 = 0 then qdiv 1 2 else -(qdiv 1 2), 0⟩).1.data,
        0 ≤ q.volume) :=
  ⟨by decide,
   (C4_generate_mock_ohlc_invariant (chars "AAPL") (chars "1W") 1704067200000
     ⟨fun n => if n % 2 = 0 then qdiv 1 2 else -(qdiv 1 2), 0⟩).1,
   (C4_generate_mock_ohlc_invariant (chars "AAPL") (chars "1W") 1704067200000
     ⟨fun n => if n % 2 = 0 then qdiv 1 2 else -(qdiv 1 2), 0⟩).2 (by decide)⟩

/-- C9 counterexample: with the ticker (`AAPL`), the timeframe (`1W`)
and the injected random stream (constantly `1/2`) all fixed, two runs
at different clock readings (2024-01-01 and 2024-01-02) produce
different output — the claimed bit-for-bit identity fails because the
generator reads the wall clock for its timestamps. -/
theorem C9_counterexample :
    (generate_mock_chart_data (chars "AAPL") (chars "1W") 1704067200000
        ⟨fun _ => qdiv 1 2, 0⟩).1
      ≠ (generate_mock_chart_data (chars "AAPL") (chars "1W") 1704153600000
        ⟨fun _ => qdiv 1 2, 0⟩).1 := by decide

/-- C9 as amended: for a fixed ticker, timeframe and injected random
stream, two runs agree bit-for-bit on everything except the
timestamps — the ticker, timeframe, error tag, every price and volume,
and the final RNG state are all independent of the clock reading (and
the generator is a pure function of ticker, timeframe, clock and
stream, so two runs with the clock also fixed are identical). -/
theorem C9_generate_mock_price_determinism (ticker timeframe : List Char)
    (now1 now2 : ℤ) (rs : RandState) :
    (generate_mock_chart_data ticker timeframe now1 rs).1.ticker
        = (generate_mock_chart_data ticker timeframe now2 rs).1.ticker ∧
      (generate_mock_chart_data ticker timeframe now1 rs).1.timeframe
        = (generate_mock_chart_data ticker timeframe now2 rs).1.timeframe ∧
      (generate_mock_chart_data ticker timeframe now1 rs).1.error
        = (generate_mock_chart_data ticker timeframe now2 rs).1.error ∧
      (generate_mock_chart_data ticker timeframe now1 rs).1.data.map price_fields
        = (generate_mock_chart_data ticker timeframe now2 rs).1.data.map price_fields ∧
      (generate_mock_chart_data ticker timeframe now1 rs).2
        = (generate_mock_chart_data ticker timeframe now2 rs).2 := by
  simp only [generate_mock_chart_data, next_draw]
  by_cases h10 : 10 < (timeframe_params timeframe).points <;>
      simp only [h10, if_true, if_false, ite_true, ite_false] <;>
    exact ⟨by simp, by simp, by simp, (mock_point_loop_date_free _ _ _ _ _ _ _ _).1,
      (mock_point_loop_date_free _ _ _ _ _ _ _ _).2⟩

/-! ## The fetch subsystem -/

theorem dict_get_cons_self {α : Type} (l : List (List Char × α)) (k : List Char) (v : α) :
    dict_get ((k, v) :: l) k = some v := by
  simp [dict_get, List.find?]

/-- C1: `get_chart_data` is total over remote failure — every failure
class is mapped as specified.  Under a cache miss, an open rate gate
and a configured API key (so that the remote call is attempted):
a 429 returns the synthetic series and caches it under the
`TICKER_timeframe` key; a 403 returns an error-tagged empty series
without caching; any other HTTP error or any other exception returns an
error-tagged empty series without caching.  (Totality itself is by
construction: the embedding of the function returns a `FetchResult` on
every input — every exception path of the Python `try` is one of the
`RemoteResult` cases handled here.) -/
theorem C1_get_chart_data_failure_classes (ticker timeframe : List Char) (now now2 : ℚ)
    (remote : RemoteResult) (mock_now : ℤ) (st : FetchState) (rs : RandState)
    (hmiss : dict_get st.api_cache (upper ticker ++ '_' :: timeframe) = none)
    (hgate : ¬ qsub now st.last_api_call_time < API_CALL_DELAY) :
    (remote = .httpError 429 →
        (get_chart_data ticker timeframe now now2 true remote mock_now st rs).series
            = (generate_mock_chart_data (upper ticker) timeframe mock_now rs).1 ∧
          (get_chart_data ticker timeframe now now2 true remote mock_now st rs).state.api_cache
            = (upper ticker ++ '_' :: timeframe,
                (generate_mock_chart_data (upper ticker) timeframe mock_now rs).1)
              :: st.api_cache) ∧
      (remote = .httpError 403 →
        ((get_chart_data ticker timeframe now now2 true remote mock_now st rs).series.error.isSome
            = true ∧
          (get_chart_data ticker timeframe now now2 true remote mock_now st rs).series.data = [] ∧
          (get_chart_data ticker timeframe now now2 true remote mock_now st rs).state.api_cache
            = st.api_cache)) ∧
      (∀ s : ℕ, s ≠ 403 → s ≠ 429 → remote = .httpError s →
        ((get_chart_data ticker timeframe now now2 true remote mock_now st rs).series.error.isSome
            = true ∧
          (get_chart_data ticker timeframe now now2 true remote mock_now st rs).series.data = [] ∧
          (get_chart_data ticker timeframe now now2 true remote mock_now st rs).state.api_cache
            = st.api_cache)) ∧
      (∀ msg : List Char, remote = .exception msg →
        ((get_chart_data ticker timeframe now now2 true remote mock_now st rs).series.error.isSome
            = true ∧
          (get_chart_data ticker timeframe now now2 true remote mock_now st rs).series.data = [] ∧
          (get_chart_data ticker timeframe now now2 true remote mock_now st rs).state.api_cache
            = st.api_cache)) := by
  refine ⟨?_, ?_, ?_, ?_⟩
  · rintro rfl
    simp [get_chart_data, hmiss, hgate, error_series]
  · rintro rfl
    simp [get_chart_data, hmiss, hgate, error_series]
  · rintro s h403 h429 rfl
    simp [get_chart_data, hmiss, hgate, error_series, h403, h429]
  · rintro msg rfl
    simp [get_chart_data, hmiss, hgate, error_series]

/-- Witness for C1 at a concrete input (the 429 case). -/
theorem C1_witness :
    (dict_get (⟨[], 0⟩ : FetchState).api_cache (upper (chars "AAPL") ++ '_' :: chars "1W")
        = none) ∧
      ¬ qsub 100 (⟨([] : List (List Char × ChartSeries)), 0⟩ : FetchState).last_api_call_time
          < API_CALL_DELAY ∧
      ((get_chart_data (chars "AAPL") (chars "1W") 100 100 true (.httpError 429) 1704067200000
          ⟨[], 0⟩ ⟨fun _ => qdiv 1 2, 0⟩).series
          = (generate_mock_chart_data (upper (chars "AAPL")) (chars "1W") 1704067200000
              ⟨fun _ => qdiv 1 2, 0⟩).1 ∧
        (get_chart_data (chars "AAPL") (chars "1W") 100 100 true (.httpError 429) 1704067200000
            ⟨[], 0⟩ ⟨fun _ => qdiv 1 2, 0⟩).state.api_cache
          = (upper (chars "AAPL") ++ '_' :: chars "1W",
              (generate_mock_chart_data (upper (chars "AAPL")) (chars "1W") 1704067200000
                ⟨fun _ => qdiv 1 2, 0⟩).1) :: (⟨[], 0⟩ : FetchState).api_cache) :=
  ⟨by decide, by decide,
   (C1_get_chart_data_failure_classes (chars "AAPL") (chars "1W") 100 100 (.httpError 429)
       1704067200000 ⟨[], 0⟩ ⟨fun _ => qdiv 1 2, 0⟩ (by decide) (by decide)).1 rfl⟩

/-- C2: the rate gate.  (a) A cache miss within `API_CALL_DELAY` of the
last permitted remote call skips the remote call entirely: the result
is exactly the synthetic series, nothing is cached and the gate
timestamp is untouched.  (b)/(c) The gate timestamp is updated only by
an attempted remote call — a call that made no remote request leaves it
unchanged, one that did sets it to the clock reading taken immediately
before the request was issued.  (d) Hence two fetches at times `t` and
`t + δ` with `δ < API_CALL_DELAY` never make two remote calls: if the
first made one, the second (whatever its arguments) does not. -/
theorem C2_rate_gate (ticker timeframe : List Char) (now now2 : ℚ) (api_key_set : Bool)
    (remote : RemoteResult) (mock_now : ℤ) (st : FetchState) (rs : RandState) :
    (dict_get st.api_cache (upper ticker ++ '_' :: timeframe) = none →
        qsub now st.last_api_call_time < API_CALL_DELAY →
        get_chart_data ticker timeframe now now2 api_key_set remote mock_now st rs
          = ⟨(generate_mock_chart_data ticker timeframe mock_now rs).1, st,
             (generate_mock_chart_data ticker timeframe mock_now rs).2, false⟩) ∧
      ((get_chart_data ticker timeframe now now2 api_key_set remote mock_now st rs).made_api_call
          = false →
        (get_chart_data ticker timeframe now now2 api_key_set remote mock_now
            st rs).state.last_api_call_time
          = st.last_api_call_time) ∧
      ((get_chart_data ticker timeframe now now2 api_key_set remote mock_now st rs).made_api_call
          = true →
        (get_chart_data ticker timeframe now now2 api_key_set remote mock_now
            st rs).state.last_api_call_time
          = now2) ∧
      (∀ (tk tf : List Char) (u u2 : ℚ) (aks : Bool) (rm : RemoteResult) (mn : ℤ)
          (rs2 : RandState),
        (get_chart_data ticker timeframe now now2 api_key_set remote mock_now st rs).made_api_call
            = true →
        now ≤ now2 → qsub u now < API_CALL_DELAY →
        (get_chart_data tk tf u u2 aks rm mn
            (get_chart_data ticker timeframe now now2 api_key_set remote mock_now st rs).state
            rs2).made_api_call
          = false) := by
  have hcases :
      ∀ h : FetchResult, h = get_chart_data ticker timeframe now now2 api_key_set remote
          mock_now st rs →
        (h.made_api_call = false ∧ h.state = st) ∨
          (h.made_api_call = true ∧ h.state.last_api_call_time = now2) := by
    intro h hh
    subst hh
    rw [get_chart_data]
    rcases hm : dict_get st.api_cache (upper ticker ++ '_' :: timeframe) with _ | c
    · simp only []
      by_cases hg : qsub now st.last_api_call_time < API_CALL_DELAY
      · simp [hg]
      · simp only [hg, if_false, ite_false, reduceIte]
        rcases api_key_set with _ | _
        · simp
        · simp only [Bool.true_eq_false, if_false, ite_false, reduceIte]
          rcases remote with ⟨results, ef⟩ | status | msg
          · rcases results with _ | bars
            · rcases hef : ef with _ | m <;> simp
            · rcases bars with _ | ⟨b, bs⟩
              · rcases hef : ef with _ | m <;> simp
              · simp
          · by_cases h403 : status = 403
            · simp [h403]
            · by_cases h429 : status = 429 <;> simp [h403, h429]
          · simp
    · simp
  refine ⟨?_, ?_, ?_, ?_⟩
  · intro hmiss hgate
    simp [get_chart_data, hmiss, hgate]
  · intro hmade
    rcases hcases _ rfl with ⟨_, hst⟩ | ⟨htrue, _⟩
    · rw [hst]
    · rw [hmade] at htrue
      exact absurd htrue (by simp)
  · intro hmade
    rcases hcases _ rfl with ⟨hfalse, _⟩ | ⟨_, hlast⟩
    · rw [hmade] at hfalse
      exact absurd hfalse (by simp)
    · exact hlast
  · intro tk tf u u2 aks rm mn rs2 hmade hmono hdelta
    have hlast : (get_chart_data ticker timeframe now now2 api_key_set remote mock_now
        st rs).state.last_api_call_time = now2 := by
      rcases hcases _ rfl with ⟨hfalse, _⟩ | ⟨_, hlast⟩
      · rw [hmade] at hfalse
        exact absurd hfalse (by simp)
      · exact hlast
    rw [get_chart_data]
    rcases hm2 : dict_get (get_chart_data ticker timeframe now now2 api_key_set remote mock_now
        st rs).state.api_cache (upper tk ++ '_' :: tf) with _ | c
    · simp only []
      have hg2 : qsub u (get_chart_data ticker timeframe now now2 api_key_set remote mock_now
          st rs).state.last_api_call_time < API_CALL_DELAY := by
        rw [hlast, qsub_eq]
        rw [qsub_eq] at hdelta
        linarith
      simp [hg2]
    · simp

/-- Witness for C2 at a concrete input (the rate-gate-skip case). -/
theorem C2_witness :
    (dict_get (⟨[], 0⟩ : FetchState).api_cache (upper (chars "AAPL") ++ '_' :: chars "1W")
        = none) ∧
      qsub 1 (⟨([] : List (List Char × ChartSeries)), 0⟩ : FetchState).last_api_call_time
          < API_CALL_DELAY ∧
      get_chart_data (chars "AAPL") (chars "1W") 1 1 true (.exception []) 1704067200000
          ⟨[], 0⟩ ⟨fun _ => qdiv 1 2, 0⟩
        = ⟨(generate_mock_chart_data (chars "AAPL") (chars "1W") 1704067200000
              ⟨fun _ => qdiv 1 2, 0⟩).1,
           ⟨[], 0⟩,
           (generate_mock_chart_data (chars "AAPL") (chars "1W") 1704067200000
              ⟨fun _ => qdiv 1 2, 0⟩).2, false⟩ :=
  ⟨by decide, by decide,
   (C2_rate_gate (chars "AAPL") (chars "1W") 1 1 true (.exception []) 1704067200000
       ⟨[], 0⟩ ⟨fun _ => qdiv 1 2, 0⟩).1 (by decide) (by decide)⟩

/-- C3 counterexample: the claimed "two consecutive `fetch` calls
within the rate-gate spacing window, with no prior cache entry, return
structurally identical Series" fails.  Concrete run: empty cache, last
permitted call at time 100; fetches at times 101 and 102 are both
rate-gate skips, nothing is cached, and each call draws fresh values
from the advancing RNG stream (here `1/(n+2)`), so the two synthetic
series differ. -/
theorem C3_counterexample :
    (get_chart_data (chars "AAPL") (chars "1W") 101 101 true (.exception []) 1704067200000
        ⟨[], 100⟩ ⟨fun n => qdiv 1 (((n + 2 : ℕ)) : ℚ), 0⟩).series
      ≠ (get_chart_data (chars "AAPL") (chars "1W") 102 102 true (.exception []) 1704067200000
          (get_chart_data (chars "AAPL") (chars "1W") 101 101 true (.exception []) 1704067200000
            ⟨[], 100⟩ ⟨fun n => qdiv 1 (((n + 2 : ℕ)) : ℚ), 0⟩).state
          (get_chart_data (chars "AAPL") (chars "1W") 101 101 true (.exception []) 1704067200000
            ⟨[], 100⟩ ⟨fun n => qdiv 1 (((n + 2 : ℕ)) : ℚ), 0⟩).rand).series := by
  decide

/-- C3 as amended: (1) a fetch whose key is in the cache returns the
cached series unchanged (and touches nothing); (2) when the first call
actually attempts the remote call and that call succeeds with bars or
is a 429 rate-limit fallback, the result is cached, so a second call
for the same ticker and timeframe returns the identical series (it is a
cache hit).  When the first call is a rate-gate skip or any other
failure, nothing is cached and the second call may be a fresh random
draw — the claim's unconditional "structurally identical" does not
hold (see the counterexample). -/
theorem C3_cache_idempotence_amended (ticker timeframe : List Char) (now now2 : ℚ)
    (api_key_set : Bool) (remote : RemoteResult) (mock_now : ℤ) (st : FetchState)
    (rs : RandState) :
    (∀ cached, dict_get st.api_cache (upper ticker ++ '_' :: timeframe) = some cached →
        get_chart_data ticker timeframe now now2 api_key_set remote mock_now st rs
          = ⟨cached, st, rs, false⟩) ∧
      (dict_get st.api_cache (upper ticker ++ '_' :: timeframe) = none →
        ¬ qsub now st.last_api_call_time < API_CALL_DELAY →
        api_key_set = true →
        (remote = .httpError 429 ∨ ∃ ef b bs, remote = .resp (some (b :: bs)) ef) →
        ∀ (u u2 : ℚ) (aks : Bool) (rm : RemoteResult) (mn : ℤ) (rs2 : RandState),
          (get_chart_data ticker timeframe u u2 aks rm mn
              (get_chart_data ticker timeframe now now2 api_key_set remote mock_now st rs).state
              rs2).series
            = (get_chart_data ticker timeframe now now2 api_key_set remote mock_now
                st rs).series) := by
  constructor
  · intro cached hhit
    simp [get_chart_data, hhit]
  · intro hmiss hgate hkey hrem u u2 aks rm mn rs2
    subst hkey
    have hhit : dict_get
        (get_chart_data ticker timeframe now now2 true remote mock_now st rs).state.api_cache
        (upper ticker ++ '_' :: timeframe)
        = some (get_chart_data ticker timeframe now now2 true remote mock_now st rs).series := by
      rcases hrem with rfl | ⟨ef, b, bs, rfl⟩
      · simp [get_chart_data, hmiss, hgate, dict_get_cons_self]
      · simp [get_chart_data, hmiss, hgate, dict_get_cons_self]
    conv_lhs => rw [get_chart_data]
    rw [hhit]

/-- Witness for C3's amended theorem at a concrete input (a cache
hit returns the cached entry unchanged). -/
theorem C3_witness :
    (dict_get [(upper (chars "AAPL") ++ '_' :: chars "1W",
          (⟨chars "AAPL", chars "1W", none, []⟩ : ChartSeries))]
        (upper (chars "AAPL") ++ '_' :: chars "1W")
        = some (⟨chars "AAPL", chars "1W", none, []⟩ : ChartSeries)) ∧
      get_chart_data (chars "AAPL") (chars "1W") 0 0 true (.exception []) 0
          ⟨[(upper (chars "AAPL") ++ '_' :: chars "1W",
             ⟨chars "AAPL", chars "1W", none, []⟩)], 0⟩ ⟨fun _ => qdiv 1 2, 0⟩
        = ⟨⟨chars "AAPL", chars "1W", none, []⟩,
           ⟨[(upper (chars "AAPL") ++ '_' :: chars "1W",
              ⟨chars "AAPL", chars "1W", none, []⟩)], 0⟩,
           ⟨fun _ => qdiv 1 2, 0⟩, false⟩ :=
  ⟨by decide,
   (C3_cache_idempotence_amended (chars "AAPL") (chars "1W") 0 0 true (.exception []) 0
       ⟨[(upper (chars "AAPL") ++ '_' :: chars "1W", ⟨chars "AAPL", chars "1W", none, []⟩)], 0⟩
       ⟨fun _ => qdiv 1 2, 0⟩).1 ⟨chars "AAPL", chars "1W", none, []⟩ (by decide)⟩

/-! ## Broadcast, handshake, ticker extraction, message handling -/

/-- C5 counterexample: three live connections A, B, C; delivering to
B's transport raises; then C does not receive the broadcast event (only
A, which precedes B, does) — the `for` loop has no per-connection
exception isolation, so the claimed broadcast isolation fails. -/
theorem C5_counterexample :
    (broadcast [⟨0, chars "a", chars "A"⟩, ⟨1, chars "b", chars "B"⟩, ⟨2, chars "c", chars "C"⟩]
        none (fun w => w != 1)).1
        = [⟨0, chars "a", chars "A"⟩] ∧
      (⟨2, chars "c", chars "C"⟩ : UserConnection)
        ∉ (broadcast [⟨0, chars "a", chars "A"⟩, ⟨1, chars "b", chars "B"⟩,
            ⟨2, chars "c", chars "C"⟩] none (fun w => w != 1)).1 := by
  decide

/-- C5 as amended: a delivery failure aborts the broadcast loop — the
event is delivered exactly to the longest prefix of non-excluded live
connections whose sends succeed; connections at or after the first
failing one receive nothing.  (When every send succeeds this is
delivery to all non-excluded connections.) -/
theorem C5_broadcast_prefix_delivery (conns : List UserConnection)
    (exclude : Option UserConnection) (send_ok : ℕ → Bool) :
    broadcast conns exclude send_ok
      = ((conns.filter (fun c => !excludedBy exclude c)).takeWhile
           (fun c => send_ok c.websocket),
         (conns.filter (fun c => !excludedBy exclude c)).all
           (fun c => send_ok c.websocket)) := by
  induction conns with
  | nil => simp [broadcast]
  | cons c rest ih =>
    by_cases hex : excludedBy exclude c <;> by_cases hok : send_ok c.websocket <;>
      simp [broadcast, hex, hok, ih]

/-- C7: ticker extraction is the ordered-pattern scan in which the
first allow-listed capture wins: on "Let's look at the price of AAPL
today" it returns `AAPL` (via the "price of X" pattern); on "XYZQ is a
great company" it returns nothing (`XYZQ` is not allow-listed); and
every ticker it ever returns is in the 24-symbol allow-list. -/
theorem C7_extract_ticker_spec :
    extract_ticker (chars "Let" ++ [Char.ofNat 39] ++ chars "s look at the price of AAPL today")
        = some (chars "AAPL") ∧
      extract_ticker (chars "XYZQ is a great company") = none ∧
      ∀ text t, extract_ticker text = some t → t ∈ valid_tickers := by
  refine ⟨by decide, by decide, ?_⟩
  intro text t h
  rw [extract_ticker] at h
  obtain ⟨pat, hmem, hfind⟩ := List.exists_of_findSome?_eq_some h
  have := List.find?_some hfind
  simpa using this

/-- Witness for C7 (its allow-list part) at a concrete input. -/
theorem C7_witness :
    extract_ticker (chars "about TSLA today") = some (chars "TSLA") ∧
      chars "TSLA" ∈ valid_tickers :=
  ⟨by decide, C7_extract_ticker_spec.2.2 (chars "about TSLA today") (chars "TSLA") (by decide)⟩

/-- C8 counterexample: a first inbound message of type `chat` — not a
join — is not rejected: the handshake sends no error, transitions to
ACTIVE anyway, and derives the display name from the session id. -/
theorem C8_counterexample :
    handshake_first_message (chars "abcdef123") ⟨chars "chat", none⟩
      = ⟨chars "User-abcdef", .ACTIVE, []⟩ := by
  decide

/-- C8 as amended: the relay treats the first inbound message — of any
type — as the join payload: the connection always transitions to
ACTIVE, no structured error is ever sent while awaiting the handshake,
and the display name is the message's `username` field, defaulting to
`User-` followed by the first six characters of the session id.  (Only
the default-name part of the original claim holds; non-join first
messages are not rejected.) -/
theorem C8_handshake_amended (user_id : List Char) (msg : FirstMessage) :
    (handshake_first_message user_id msg).state = .ACTIVE ∧
      (handshake_first_message user_id msg).errors_sent = [] ∧
      (handshake_first_message user_id msg).username
        = msg.username.getD (chars "User-" ++ user_id.take 6) :=
  ⟨rfl, rfl, rfl⟩

/-- C10: every chart fetch the relay performs — on the AI path
(explicit tool call or implicit ticker extraction) and on the client
`chart_request` path — passes the fixed timeframe `"1W"` to
`get_chart_data`, whatever timeframe the client or the tool-call
arguments asked for. -/
theorem C10_fetches_use_1W (user_id username content timestamp : List Char) (ai_toggle : Bool)
    (chunks : List AgentChunk) (stream_error : Option (List Char)) (now now2 : ℚ)
    (api_key_set : Bool) (remote : RemoteResult) (mock_now : ℤ) (st : FetchState)
    (rs : RandState) (uid2 : List Char) (ticker_field : Option (List Char)) :
    (∀ c ∈ (handle_chat user_id username content timestamp ai_toggle chunks stream_error
        now now2 api_key_set remote mock_now st rs).fetch_calls, c.2 = chars "1W") ∧
      (∀ c ∈ (handle_chart_request uid2 ticker_field now now2 api_key_set remote mock_now
          st rs).fetch_calls, c.2 = chars "1W") := by
  have hblock : ∀ (req : Bool) (tick : Option (List Char)) (c : List Char × List Char),
      c ∈ (chart_block req tick now now2 api_key_set remote mock_now st rs).2.1 →
      c.2 = chars "1W" := by
    intro req tick c hc
    rcases tick with _ | t
    · simp [chart_block] at hc
    · rw [chart_block] at hc
      split at hc
      · simp at hc
        rw [hc]
      · simp at hc
  constructor
  · intro c hc
    rw [handle_chat.eq_def] at hc
    split at hc
    · simp at hc
    · split at hc
      · simp at hc
      · exact hblock _ _ c hc
  · intro c hc
    rw [handle_chart_request.eq_def] at hc
    dsimp only at hc
    split at hc
    · simp at hc
    · split at hc
      · simp at hc
      · simp at hc
        rw [hc]

/-- Witness for C10: a concrete `chart_request` fetch call, shown to
carry timeframe `"1W"`. -/
theorem C10_witness :
    ((chars "AAPL", chars "1W")
        ∈ (handle_chart_request (chars "u1") (some (chars "AAPL")) 1 1 true (.exception [])
            1704067200000 ⟨[], 100⟩ ⟨fun _ => qdiv 1 2, 0⟩).fetch_calls) ∧
      (chars "AAPL", chars "1W").2 = chars "1W" :=
  ⟨by decide,
   (C10_fetches_use_1W (chars "u1") (chars "alice") (chars "hi") [] false [] none 1 1 true
       (.exception []) 1704067200000 ⟨[], 100⟩ ⟨fun _ => qdiv 1 2, 0⟩ (chars "u1")
       (some (chars "AAPL"))).2 (chars "AAPL", chars "1W") (by decide)⟩

/-- C6 counterexample: in the end-to-end TSLA scenario the relay
broadcasts, in order: the user's chat message, the AI typing
indicator, the `ai_stream` tokens, then `ai_complete`, and only then
the single `chart_data` event (followed by `update_chart`) — so the
claimed "chart_data precedes ai_complete" is false: `ai_complete` is
at index 4 and `chart_data` at index 5 of the trace. -/
theorem C6_counterexample :
    ((handle_chat (chars "u1") (chars "alice") (chars "What about TSLA?") [] true
        [.output (chars "I can tell you "), .output (chars "about TSLA now.")] none
        101 101 true (.exception []) 1704067200000 ⟨[], 100⟩
        ⟨fun _ => qdiv 1 2, 0⟩).events.map event_type
        = [chars "chat", chars "typing", chars "ai_stream", chars "ai_stream",
           chars "ai_complete", chars "chart_data", chars "update_chart"]) := by
  decide

/-- C6 as amended: for the scenario
`{"type":"chat","content":"What about TSLA?","ai_toggle":true}` with an
AI response mentioning "about TSLA" (the scan runs over the accumulated
AI response, not the user's message), the relay broadcasts the user's
chat message verbatim, then the AI typing indicator, then the
`ai_stream` token events, then the `ai_complete` marker, and then
exactly one `chart_data` event whose `data.ticker` is `TSLA` with a
non-empty date-ascending bar sequence, followed by `update_chart` —
i.e. the claimed pipeline holds except that `ai_complete` precedes
`chart_data`. -/
theorem C6_chat_scenario_amended :
    ((handle_chat (chars "u1") (chars "alice") (chars "What about TSLA?") [] true
        [.output (chars "I can tell you "), .output (chars "about TSLA now.")] none
        101 101 true (.exception []) 1704067200000 ⟨[], 100⟩
        ⟨fun _ => qdiv 1 2, 0⟩).events.map event_type
        = [chars "chat", chars "typing", chars "ai_stream", chars "ai_stream",
           chars "ai_complete", chars "chart_data", chars "update_chart"]) ∧
      ((handle_chat (chars "u1") (chars "alice") (chars "What about TSLA?") [] true
          [.output (chars "I can tell you "), .output (chars "about TSLA now.")] none
          101 101 true (.exception []) 1704067200000 ⟨[], 100⟩
          ⟨fun _ => qdiv 1 2, 0⟩).events.get? 0
        = some (.chat (chars "u1") (chars "alice") (chars "What about TSLA?") [])) ∧
      ((handle_chat (chars "u1") (chars "alice") (chars "What about TSLA?") [] true
          [.output (chars "I can tell you "), .output (chars "about TSLA now.")] none
          101 101 true (.exception []) 1704067200000 ⟨[], 100⟩
          ⟨fun _ => qdiv 1 2, 0⟩).events.get? 1
        = some (.typing (chars "ai") (chars "AlphaGain"))) ∧
      chart_data_ok
        ((handle_chat (chars "u1") (chars "alice") (chars "What about TSLA?") [] true
            [.output (chars "I can tell you "), .output (chars "about TSLA now.")] none
            101 101 true (.exception []) 1704067200000 ⟨[], 100⟩
            ⟨fun _ => qdiv 1 2, 0⟩).events.get? 5) (chars "TSLA") = true ∧
      extract_ticker (chars "I can tell you about TSLA now.") = some (chars "TSLA") := by
  refine ⟨by decide, by decide, by decide, by decide, by decide⟩
